import Mathlib

set_option maxHeartbeats 1000000

namespace WSApp

/-- JSON values as produced by json.loads and consumed by json.dumps.
Numbers are modelled as integers: every numeric field the server emits comes
from int(time.time()) or from differences of such timestamps. -/
inductive JsonValue where
  | null
  | bool (b : Bool)
  | num (n : Int)
  | str (s : String)
  | arr (elems : List JsonValue)
  | obj (fields : List (String × JsonValue))

/-- Lookup of a key in an association list, used both for JSON objects and for
the connections dictionary. Python dict keys are unique, so the first binding
is the binding. -/
def alistLookup {α : Type} (key : String) : List (String × α) → Option α
  | [] => none
  | (k, v) :: rest => if k = key then some v else alistLookup key rest

/-- Update the value bound to a key in an association list, modelling
`d[key] = f(d[key])` on a Python dict. -/
def alistUpdate {α : Type} (key : String) (f : α → α) : List (String × α) → List (String × α)
  | [] => []
  | (k, v) :: rest => if k = key then (k, f v) :: rest else (k, v) :: alistUpdate key f rest

/-- Deletion of a key from an association list, modelling `del d[key]` on a
Python dict (keys are unique, so removing every binding of the key is the
same operation). -/
def alistErase {α : Type} (key : String) : List (String × α) → List (String × α)
  | [] => []
  | (k, v) :: rest => if k = key then alistErase key rest else (k, v) :: alistErase key rest

/-- Assignment `d[key] = v` on a Python dict: replaces the binding of an
existing key in place, appends a new key at the end. -/
def alistInsert {α : Type} (key : String) (v : α) : List (String × α) → List (String × α)
  | [] => [(key, v)]
  | (k, w) :: rest => if k = key then (key, v) :: rest else (k, w) :: alistInsert key v rest

/-- Python's `value == "somestring"`: true exactly when the value is that
string (a non-string JSON value never compares equal to a string). -/
def JsonValue.isStr (v : JsonValue) (s : String) : Bool :=
  match v with
  | .str t => t = s
  | _ => false

/-- Whether a JSON value is an object (a Python dict after json.loads). -/
def JsonValue.isObj : JsonValue → Bool
  | .obj _ => true
  | _ => false

/-- Python's `message.get(key, default)`. On a dict it returns the bound value
or the default; on any non-dict value `.get` does not exist and the attribute
access raises AttributeError. -/
def pyGet (v : JsonValue) (key : String) (dflt : JsonValue) : Except String JsonValue :=
  match v with
  | .obj fields => .ok ((alistLookup key fields).getD dflt)
  | _ => .error "AttributeError: object has no attribute get"

/-- Python's `len(value)`: defined for strings, lists and dicts; raises
TypeError on numbers, booleans and None. -/
def pyLen (v : JsonValue) : Except String Nat :=
  match v with
  | .str s => .ok s.length
  | .arr xs => .ok xs.length
  | .obj fields => .ok fields.length
  | _ => .error "TypeError: object has no len"

/-- Rendering of a Python value inside an f-string (used only for the human
readable `message` text of the echo response; abbreviated for containers,
since no emitted field is ever parsed back). -/
def pyStr : JsonValue → String
  | .null => "None"
  | .bool b => if b then "True" else "False"
  | .num n => toString n
  | .str s => s
  | .arr xs => "[list of " ++ toString xs.length ++ "]"
  | .obj fields => "[dict of " ++ toString fields.length ++ "]"

/-- One entry of ConnectionManager.connections: the per-connection record
created by add_connection. The transport handle is modelled by an opaque
numeric identifier. -/
structure ConnRecord where
  ws : Nat
  connected_at : Int
  last_ping : Int
  message_count : Nat
deriving DecidableEq

/-- The ConnectionManager state: `connections` is the id-to-record dict,
and `message_count` is the (never used) instance counter initialised to 0
in __init__. -/
structure ConnectionManager where
  connections : List (String × ConnRecord)
  message_count : Nat

/-- ConnectionManager.add_connection: unconditionally assigns
`self.connections[connection_id] = new record` (a plain dict assignment:
it inserts, or replaces whatever was there). -/
def ConnectionManager.add_connection (m : ConnectionManager) (ws : Nat) (cid : String)
    (now : Int) : ConnectionManager :=
  ⟨alistInsert cid ⟨ws, now, now, 0⟩ m.connections, m.message_count⟩

/-- ConnectionManager.remove_connection: `if connection_id in self.connections:
del self.connections[connection_id]` — deletes when present, no-op otherwise. -/
def ConnectionManager.remove_connection (m : ConnectionManager) (cid : String) :
    ConnectionManager :=
  if (alistLookup cid m.connections).isSome then
    ⟨alistErase cid m.connections, m.message_count⟩
  else m

/-- One entry of the snapshot returned by get_connection_info: the public
fields of a record, without the transport handle. -/
structure ConnInfoEntry where
  connected_at : Int
  duration : Int
  message_count : Nat

/-- The value returned by ConnectionManager.get_connection_info. -/
structure ConnectionInfo where
  total_connections : Nat
  connections : List (String × ConnInfoEntry)

/-- ConnectionManager.get_connection_info: point-in-time copy of every
record's public fields (connected_at, duration = now - connected_at,
message_count); the ws handle is not exposed. -/
def ConnectionManager.get_connection_info (m : ConnectionManager) (now : Int) :
    ConnectionInfo :=
  ⟨m.connections.length,
   m.connections.map (fun p => (p.1, ⟨p.2.connected_at, now - p.2.connected_at,
                                      p.2.message_count⟩))⟩

/-- safe_send: `try: ws.send(json.dumps(message)); return True except: return False`.
The argument is the outcome of the underlying `ws.send(json.dumps(message))`
call (an exception from serialization or from the socket is the error case);
the wrapper converts any outcome into a Bool and never re-raises. -/
def safe_send (sendResult : Except String Unit) : Bool :=
  match sendResult with
  | .ok _ => true
  | .error _ => false

/-- Field access on a JSON object payload (for stating properties of emitted
responses). -/
def jsonField (v : JsonValue) (key : String) : Option JsonValue :=
  match v with
  | .obj fields => alistLookup key fields
  | _ => none

/-- The welcome payload sent right after registration. -/
def welcomeMsg (cid : String) (now : Int) : JsonValue :=
  .obj [("type", .str "system_ready"),
        ("message", .str "🤖 Test connection successful!"),
        ("connection_id", .str cid),
        ("server_time", .num now)]

/-- The error payload built in the `except json.JSONDecodeError` branch. -/
def invalidJsonResponse (e : String) (now : Int) : JsonValue :=
  .obj [("type", .str "error"),
        ("message", .str "Invalid JSON format"),
        ("error", .str e),
        ("timestamp", .num now)]

/-- The error payload built in the catch-all `except Exception` branch of the
message-processing block. -/
def processingErrorResponse (now : Int) : JsonValue :=
  .obj [("type", .str "error"),
        ("message", .str "Server processing error"),
        ("timestamp", .num now)]

/-- The body of the `try` that handles one decoded message (lines 118-174 of
app.py): read `message.get('type', 'unknown')`, branch on the type string and
build the response. A raised exception (AttributeError from `.get` on a
non-dict, KeyError from the unguarded `connection_manager.connections[cid]`
lookup, TypeError from `len`) is the error case. -/
def computeResponse (now : Int) (cid : String) (mgr : ConnectionManager)
    (message : JsonValue) : Except String JsonValue :=
  match pyGet message "type" (.str "unknown") with
  | .error e => .error e
  | .ok msg_type =>
    if msg_type.isStr "ping" then
      match alistLookup cid mgr.connections with
      | none => .error "KeyError"
      | some conn =>
        match pyGet message "timestamp" .null with
        | .error e => .error e
        | .ok origTs =>
          .ok (.obj [("type", .str "pong"),
                     ("timestamp", .num now),
                     ("original_timestamp", origTs),
                     ("server_connection_time", .num (now - conn.connected_at))])
    else if msg_type.isStr "test" then
      match alistLookup cid mgr.connections with
      | none => .error "KeyError"
      | some conn =>
        match pyGet message "data" (.str "") with
        | .error e => .error e
        | .ok echoData =>
          .ok (.obj [("type", .str "test_response"),
                     ("message", .str "✅ Test successful!"),
                     ("echo_data", echoData),
                     ("server_time", .num now),
                     ("connection_stats",
                      .obj [("id", .str cid),
                            ("messages_received", .num conn.message_count),
                            ("uptime", .num (now - conn.connected_at))])])
    else if msg_type.isStr "heartbeat" then
      match alistLookup cid mgr.connections with
      | none => .error "KeyError"
      | some conn =>
        .ok (.obj [("type", .str "heartbeat_ack"),
                   ("timestamp", .num now),
                   ("connection_uptime", .num (now - conn.connected_at))])
    else if msg_type.isStr "audio_stream" then
      match pyGet message "data" (.str "") with
      | .error e => .error e
      | .ok audioData =>
        match pyLen audioData with
        | .error e => .error e
        | .ok audio_size =>
          .ok (.obj [("type", .str "audio_received"),
                     ("message", .str ("🎵 Audio chunk received (" ++ toString audio_size
                                       ++ " bytes)")),
                     ("size", .num audio_size),
                     ("timestamp", .num now)])
    else
      .ok (.obj [("type", .str "echo"),
                 ("original_type", msg_type),
                 ("message", .str ("📡 Echo: " ++ pyStr msg_type)),
                 ("original_message", message),
                 ("timestamp", .num now)])

/-- One outcome of `ws.receive()` as determined by the environment:
the call raised, returned None (clean close), or returned a raw string.
For a received string, `decoded` is the outcome of `json.loads(raw)` on it
(error text of the JSONDecodeError, or the parsed value), and `sendOutcome`
is the outcome of the `ws.send` the handler performs for the response it
builds for this message. -/
inductive InEvent where
  | recvErr (e : String)
  | recvClose
  | recvMsg (now : Int) (decoded : Except String JsonValue) (sendOutcome : Except String Unit)

/-- A registry operation, recorded in the handler trace. -/
inductive RegOp where
  | add (cid : String)
  | touch (cid : String)
  | remove (cid : String)

/-- The guarded per-message stats update (lines 112-114 of app.py):
`if connection_id in connection_manager.connections:` increment
message_count and set last_ping. -/
def touchRecord (now : Int) (cid : String) (mgr : ConnectionManager) : ConnectionManager :=
  if (alistLookup cid mgr.connections).isSome then
    ⟨alistUpdate cid (fun r => ⟨r.ws, r.connected_at, now, r.message_count + 1⟩)
       mgr.connections,
     mgr.message_count⟩
  else mgr

/-- Result of processing one loop iteration: registry-operation trace,
updated registry, payloads handed to safe_send (paired with the Bool
safe_send returned), and whether the loop continues. -/
structure StepResult where
  ops : List RegOp
  mgr : ConnectionManager
  sent : List (JsonValue × Bool)
  keepGoing : Bool

/-- One iteration of the main message loop of ws_handler for a given
receive outcome: a receive error or a None result breaks out of the loop;
a received string updates the stats, is decoded and dispatched, the
response (or the error response of the matching except-branch) is sent via
safe_send, and a failed send breaks out of the loop. -/
def processEvent (cid : String) (mgr : ConnectionManager) (ev : InEvent) : StepResult :=
  match ev with
  | .recvErr _ => ⟨[], mgr, [], false⟩
  | .recvClose => ⟨[], mgr, [], false⟩
  | .recvMsg now decoded sendOutcome =>
    let present := (alistLookup cid mgr.connections).isSome
    let mgr' := touchRecord now cid mgr
    let ops := if present then [RegOp.touch cid] else []
    let response :=
      match decoded with
      | .error e => invalidJsonResponse e now
      | .ok message =>
        match computeResponse now cid mgr' message with
        | .ok r => r
        | .error _ => processingErrorResponse now
    let ok := safe_send sendOutcome
    ⟨ops, mgr', [(response, ok)], ok⟩

/-- Result of the whole handler (or of the remaining loop): trace, final
registry, send attempts. -/
structure LoopResult where
  ops : List RegOp
  mgr : ConnectionManager
  sent : List (JsonValue × Bool)

/-- The main message loop: process receive outcomes until one of them breaks
out of the loop. -/
def wsLoop (cid : String) (mgr : ConnectionManager) : List InEvent → LoopResult
  | [] => ⟨[], mgr, []⟩
  | ev :: rest =>
    let st := processEvent cid mgr ev
    if st.keepGoing then
      let restRes := wsLoop cid st.mgr rest
      ⟨st.ops ++ restRes.ops, restRes.mgr, st.sent ++ restRes.sent⟩
    else ⟨st.ops, st.mgr, st.sent⟩

/-- ws_handler for one connection: register, send the welcome (an early
return on welcome failure), run the message loop, and in the `finally`
block always call remove_connection. -/
def ws_handler (cid : String) (ws : Nat) (t0 : Int) (welcomeOutcome : Except String Unit)
    (events : List InEvent) (mgr : ConnectionManager) : LoopResult :=
  let mgr1 := mgr.add_connection ws cid t0
  if safe_send welcomeOutcome then
    let loopRes := wsLoop cid mgr1 events
    ⟨RegOp.add cid :: (loopRes.ops ++ [RegOp.remove cid]),
     loopRes.mgr.remove_connection cid,
     (welcomeMsg cid t0, true) :: loopRes.sent⟩
  else
    ⟨[RegOp.add cid, RegOp.remove cid],
     mgr1.remove_connection cid,
     [(welcomeMsg cid t0, false)]⟩

/-- Whether a single receive outcome terminates the loop. -/
def terminalEvent : InEvent → Bool
  | .recvErr _ => true
  | .recvClose => true
  | .recvMsg _ _ sendOutcome => !(safe_send sendOutcome)

/-- Whether the event script makes the message loop terminate (rather than
leaving the handler blocked forever in `ws.receive()`). -/
def loopTerminates (events : List InEvent) : Bool :=
  events.any terminalEvent

/-- How many raw messages the loop successfully receives from an event
script before it terminates or the script ends. -/
def receivedCount : List InEvent → Nat
  | [] => 0
  | .recvErr _ :: _ => 0
  | .recvClose :: _ => 0
  | .recvMsg _ _ sendOutcome :: rest =>
    1 + (if safe_send sendOutcome then receivedCount rest else 0)

/-- Number of remove operations for a given id in a trace. -/
def countRemoves (cid : String) : List RegOp → Nat
  | [] => 0
  | .remove c :: rest => (if c = cid then 1 else 0) + countRemoves cid rest
  | .add _ :: rest => countRemoves cid rest
  | .touch _ :: rest => countRemoves cid rest

theorem alistLookup_erase_self {α : Type} (key : String) (l : List (String × α)) :
    alistLookup key (alistErase key l) = none := by
  induction l with
  | nil => simp [alistErase, alistLookup]
  | cons p rest ih =>
    obtain ⟨k, v⟩ := p
    by_cases h : k = key
    · simp [alistErase, h, ih]
    · simp [alistErase, alistLookup, h, ih]

theorem alistLookup_update_self {α : Type} (key : String) (f : α → α)
    (l : List (String × α)) :
    alistLookup key (alistUpdate key f l) = (alistLookup key l).map f := by
  induction l with
  | nil => simp [alistUpdate, alistLookup]
  | cons p rest ih =>
    obtain ⟨k, v⟩ := p
    by_cases h : k = key
    · simp [alistUpdate, alistLookup, h]
    · simp [alistUpdate, alistLookup, h, ih]

theorem alistLookup_insert_self {α : Type} (key : String) (v : α)
    (l : List (String × α)) :
    alistLookup key (alistInsert key v l) = some v := by
  induction l with
  | nil => simp [alistInsert, alistLookup]
  | cons p rest ih =>
    obtain ⟨k, w⟩ := p
    by_cases h : k = key
    · simp [alistInsert, alistLookup, h]
    · simp [alistInsert, alistLookup, h, ih]

theorem remove_connection_lookup (m : ConnectionManager) (cid : String) :
    alistLookup cid (m.remove_connection cid).connections = none := by
  unfold ConnectionManager.remove_connection
  by_cases h : (alistLookup cid m.connections).isSome
  · simp [h, alistLookup_erase_self]
  · simp [h]
    exact Option.not_isSome_iff_eq_none.mp h

theorem alistLookup_map_entries {β : Type} (cid : String)
    (g : ConnRecord → β) (l : List (String × ConnRecord))
    (h : alistLookup cid l = none) :
    alistLookup cid (l.map (fun p => (p.1, g p.2))) = none := by
  induction l with
  | nil => simp [alistLookup]
  | cons p rest ih =>
    obtain ⟨k, r⟩ := p
    by_cases hk : k = cid
    · simp [alistLookup, hk] at h
    · simp only [alistLookup, hk, if_false] at h
      simpa [alistLookup, hk] using ih h

theorem snapshot_lookup_none (m : ConnectionManager) (cid : String) (now : Int)
    (h : alistLookup cid m.connections = none) :
    alistLookup cid ((m.get_connection_info now).connections) = none := by
  unfold ConnectionManager.get_connection_info
  exact alistLookup_map_entries cid
    (fun r => (⟨r.connected_at, now - r.connected_at, r.message_count⟩ : ConnInfoEntry))
    m.connections h

theorem countRemoves_append (cid : String) (l1 l2 : List RegOp) :
    countRemoves cid (l1 ++ l2) = countRemoves cid l1 + countRemoves cid l2 := by
  induction l1 with
  | nil => simp [countRemoves]
  | cons op rest ih =>
    cases op with
    | add c => simp [countRemoves, ih]
    | touch c => simp [countRemoves, ih]
    | remove c => simp [countRemoves, ih]; omega

theorem wsLoop_countRemoves (cid c : String) (mgr : ConnectionManager)
    (events : List InEvent) : countRemoves c (wsLoop cid mgr events).ops = 0 := by
  induction events generalizing mgr with
  | nil => simp [wsLoop, countRemoves]
  | cons ev rest ih =>
    cases ev with
    | recvErr e => simp [wsLoop, processEvent, countRemoves]
    | recvClose => simp [wsLoop, processEvent, countRemoves]
    | recvMsg now decoded out =>
      by_cases h : safe_send out = true
      · simp only [wsLoop, processEvent, h, if_true, countRemoves_append]
        rw [ih]
        split <;> simp [countRemoves]
      · simp only [wsLoop, processEvent, h]
        simp only [Bool.false_eq_true, if_false]
        split <;> simp [countRemoves]

/-- C1: whichever way the handler loop terminates (clean close, receive
error, send failure, or welcome-send failure), the finally block invokes
remove_connection for the connection's id exactly once, and afterwards the
id is absent from the get_connection_info snapshot. -/
theorem c1_cleanup_exactly_once (cid : String) (ws : Nat) (t0 now : Int)
    (welcomeOutcome : Except String Unit) (events : List InEvent)
    (mgr : ConnectionManager)
    (hterm : safe_send welcomeOutcome = false ∨ loopTerminates events = true) :
    countRemoves cid (ws_handler cid ws t0 welcomeOutcome events mgr).ops = 1 ∧
    alistLookup cid
      (((ws_handler cid ws t0 welcomeOutcome events mgr).mgr.get_connection_info
          now).connections) = none := by
  unfold ws_handler
  by_cases h : safe_send welcomeOutcome = true
  · simp only [h, if_true]
    refine ⟨?_, ?_⟩
    · simp [countRemoves, countRemoves_append, wsLoop_countRemoves]
    · exact snapshot_lookup_none _ cid now (remove_connection_lookup _ cid)
  · simp only [h, Bool.false_eq_true, if_false]
    refine ⟨?_, ?_⟩
    · simp [countRemoves]
    · exact snapshot_lookup_none _ cid now (remove_connection_lookup _ cid)

/-- C1 witness: a concrete clean close. -/
theorem c1_witness :
    (safe_send (Except.ok ()) = false ∨ loopTerminates [InEvent.recvClose] = true) ∧
    (countRemoves "c" (ws_handler "c" 1 0 (Except.ok ()) [InEvent.recvClose]
        ⟨[], 0⟩).ops = 1 ∧
     alistLookup "c" (((ws_handler "c" 1 0 (Except.ok ()) [InEvent.recvClose]
        ⟨[], 0⟩).mgr.get_connection_info 5).connections) = none) :=
  ⟨Or.inr rfl,
   c1_cleanup_exactly_once "c" 1 0 5 (Except.ok ()) [InEvent.recvClose] ⟨[], 0⟩
     (Or.inr rfl)⟩

theorem isStr_eq_true_iff (v : JsonValue) (s : String) :
    v.isStr s = true ↔ v = .str s := by
  cases v <;> simp [JsonValue.isStr]

/-- C3 counterexample: with id conn_A already bound to a record,
add_connection with the same id does not fail with DuplicateId — its result
silently binds conn_A to the new record, and the old record is gone. -/
theorem c3_counterexample :
    alistLookup "conn_A"
      ((ConnectionManager.add_connection ⟨[("conn_A", ⟨1, 10, 10, 5⟩)], 0⟩ 2 "conn_A"
          20).connections) = some ⟨2, 20, 20, 0⟩ ∧
    alistLookup "conn_A"
      ((ConnectionManager.add_connection ⟨[("conn_A", ⟨1, 10, 10, 5⟩)], 0⟩ 2 "conn_A"
          20).connections) ≠ some ⟨1, 10, 10, 5⟩ := by
  constructor
  · rfl
  · intro h
    rw [show alistLookup "conn_A"
          ((ConnectionManager.add_connection ⟨[("conn_A", ⟨1, 10, 10, 5⟩)], 0⟩ 2 "conn_A"
              20).connections) = some ⟨2, 20, 20, 0⟩ from rfl] at h
    simp [ConnRecord.mk.injEq] at h

/-- C3 amended: add_connection never fails; for any registry state it binds
the id to the fresh record, silently replacing an existing record when the
id is already present. -/
theorem c3_add_silently_replaces (mgr : ConnectionManager) (ws : Nat) (cid : String)
    (now : Int) :
    alistLookup cid (mgr.add_connection ws cid now).connections
      = some ⟨ws, now, now, 0⟩ := by
  unfold ConnectionManager.add_connection
  exact alistLookup_insert_self cid _ mgr.connections

/-- C4: over any event script, each successfully received raw message
increments the record's message_count exactly once — whether or not its JSON
decode fails — so after N received messages the count is the initial count
plus N (in particular it never decreases). -/
theorem c4_message_count (cid : String) (mgr : ConnectionManager) (r : ConnRecord)
    (events : List InEvent)
    (h : alistLookup cid mgr.connections = some r) :
    (alistLookup cid (wsLoop cid mgr events).mgr.connections).map ConnRecord.message_count
      = some (r.message_count + receivedCount events) := by
  induction events generalizing mgr r with
  | nil => simp [wsLoop, receivedCount, h]
  | cons ev rest ih =>
    cases ev with
    | recvErr e => simp [wsLoop, processEvent, receivedCount, h]
    | recvClose => simp [wsLoop, processEvent, receivedCount, h]
    | recvMsg now decoded out =>
      have hpres : (alistLookup cid mgr.connections).isSome = true := by simp [h]
      have htouch : alistLookup cid (touchRecord now cid mgr).connections
          = some ⟨r.ws, r.connected_at, now, r.message_count + 1⟩ := by
        simp [touchRecord, hpres, alistLookup_update_self, h]
      by_cases hso : safe_send out = true
      · simp only [wsLoop, processEvent, hso, if_true]
        rw [ih _ _ htouch]
        simp [receivedCount, hso]
        omega
      · simp only [wsLoop, processEvent, hso, Bool.false_eq_true, if_false]
        simp [htouch, receivedCount, hso]

/-- C4 witness: a fresh record receives one valid and one malformed message
before a clean close; its count ends at 2. -/
theorem c4_witness :
    (alistLookup "c" (⟨[("c", ⟨1, 0, 0, 0⟩)], 0⟩ : ConnectionManager).connections
       = some ⟨1, 0, 0, 0⟩) ∧
    (alistLookup "c"
       (wsLoop "c" ⟨[("c", ⟨1, 0, 0, 0⟩)], 0⟩
          [InEvent.recvMsg 1 (Except.ok (.obj [("type", .str "heartbeat")])) (Except.ok ()),
           InEvent.recvMsg 2 (Except.error "bad JSON") (Except.ok ()),
           InEvent.recvClose]).mgr.connections).map ConnRecord.message_count
       = some 2 :=
  ⟨rfl,
   c4_message_count "c" ⟨[("c", ⟨1, 0, 0, 0⟩)], 0⟩ ⟨1, 0, 0, 0⟩
     [InEvent.recvMsg 1 (Except.ok (.obj [("type", .str "heartbeat")])) (Except.ok ()),
      InEvent.recvMsg 2 (Except.error "bad JSON") (Except.ok ()),
      InEvent.recvClose] rfl⟩

/-- C5: a raw message whose JSON decode fails is answered with the
"Invalid JSON format" error response carrying the decode error text; the
loop keeps going exactly when that send succeeds, and on success the
remaining events are processed normally (e.g. a later valid heartbeat). -/
theorem c5_invalid_json (cid : String) (mgr : ConnectionManager) (now : Int)
    (e : String) (o : Except String Unit) (rest : List InEvent) :
    (processEvent cid mgr (.recvMsg now (.error e) o)).sent
      = [(invalidJsonResponse e now, safe_send o)] ∧
    jsonField (invalidJsonResponse e now) "message"
      = some (.str "Invalid JSON format") ∧
    jsonField (invalidJsonResponse e now) "error" = some (.str e) ∧
    (processEvent cid mgr (.recvMsg now (.error e) o)).keepGoing = safe_send o ∧
    wsLoop cid mgr (InEvent.recvMsg now (.error e) (Except.ok ()) :: rest)
      = ⟨(processEvent cid mgr (.recvMsg now (.error e) (Except.ok ()))).ops
           ++ (wsLoop cid (processEvent cid mgr
                 (.recvMsg now (.error e) (Except.ok ()))).mgr rest).ops,
         (wsLoop cid (processEvent cid mgr
            (.recvMsg now (.error e) (Except.ok ()))).mgr rest).mgr,
         (processEvent cid mgr (.recvMsg now (.error e) (Except.ok ()))).sent
           ++ (wsLoop cid (processEvent cid mgr
                 (.recvMsg now (.error e) (Except.ok ()))).mgr rest).sent⟩ := by
  refine ⟨rfl, rfl, rfl, rfl, ?_⟩
  rfl

/-- C6: for a decoded "ping" message on a registered connection, the response
is a pong whose original_timestamp echoes the request's timestamp field and
whose server_connection_time is now minus the record's connected_at. -/
theorem c6_ping_echoes_timestamp (now : Int) (cid : String) (mgr : ConnectionManager)
    (fields : List (String × JsonValue)) (r : ConnRecord) (T : JsonValue)
    (htype : alistLookup "type" fields = some (.str "ping"))
    (hrec : alistLookup cid mgr.connections = some r)
    (hts : alistLookup "timestamp" fields = some T) :
    computeResponse now cid mgr (.obj fields)
      = .ok (.obj [("type", .str "pong"),
                   ("timestamp", .num now),
                   ("original_timestamp", T),
                   ("server_connection_time", .num (now - r.connected_at))]) := by
  simp [computeResponse, pyGet, htype, hrec, hts, JsonValue.isStr]

/-- C6 witness: ping with timestamp 42 on a record connected at 100, at time
105. -/
theorem c6_witness :
    (alistLookup "type" [("type", JsonValue.str "ping"), ("timestamp", JsonValue.num 42)]
       = some (.str "ping")) ∧
    (alistLookup "c" (⟨[("c", ⟨7, 100, 100, 0⟩)], 0⟩ : ConnectionManager).connections
       = some ⟨7, 100, 100, 0⟩) ∧
    (alistLookup "timestamp"
       [("type", JsonValue.str "ping"), ("timestamp", JsonValue.num 42)]
       = some (.num 42)) ∧
    computeResponse 105 "c" ⟨[("c", ⟨7, 100, 100, 0⟩)], 0⟩
        (.obj [("type", .str "ping"), ("timestamp", .num 42)])
      = .ok (.obj [("type", .str "pong"),
                   ("timestamp", .num 105),
                   ("original_timestamp", .num 42),
                   ("server_connection_time", .num (105 - 100))]) :=
  ⟨rfl, rfl, rfl,
   c6_ping_echoes_timestamp 105 "c" ⟨[("c", ⟨7, 100, 100, 0⟩)], 0⟩
     [("type", .str "ping"), ("timestamp", .num 42)] ⟨7, 100, 100, 0⟩ (.num 42)
     rfl rfl rfl⟩

/-- C7: for a decoded "test" message on a registered connection, the sent
response is a test_response echoing the data field (empty string when
absent) whose connection_stats.messages_received is the record's
message_count after the increment for this very message. -/
theorem c7_test_response (now : Int) (cid : String) (mgr : ConnectionManager)
    (fields : List (String × JsonValue)) (r : ConnRecord) (o : Except String Unit)
    (htype : alistLookup "type" fields = some (.str "test"))
    (hrec : alistLookup cid mgr.connections = some r) :
    (processEvent cid mgr (.recvMsg now (.ok (.obj fields)) o)).sent
      = [(.obj [("type", .str "test_response"),
                ("message", .str "✅ Test successful!"),
                ("echo_data", (alistLookup "data" fields).getD (.str "")),
                ("server_time", .num now),
                ("connection_stats",
                 .obj [("id", .str cid),
                       ("messages_received", .num ((r.message_count + 1 : Nat) : Int)),
                       ("uptime", .num (now - r.connected_at))])],
          safe_send o)] ∧
    (processEvent cid mgr (.recvMsg now (.ok (.obj fields)) o)).keepGoing
      = safe_send o := by
  have hpres : (alistLookup cid mgr.connections).isSome = true := by simp [hrec]
  have htouch : alistLookup cid (touchRecord now cid mgr).connections
      = some ⟨r.ws, r.connected_at, now, r.message_count + 1⟩ := by
    simp [touchRecord, hpres, alistLookup_update_self, hrec]
  constructor
  · simp [processEvent, computeResponse, pyGet, htype, htouch, JsonValue.isStr]
  · rfl

/-- C7 witness: the first message after the welcome is a test with data
"abc"; messages_received in the reply is 1 and echo_data is "abc". -/
theorem c7_witness :
    (alistLookup "type" [("type", JsonValue.str "test"), ("data", JsonValue.str "abc")]
       = some (.str "test")) ∧
    (alistLookup "c" (⟨[("c", ⟨1, 10, 10, 0⟩)], 0⟩ : ConnectionManager).connections
       = some ⟨1, 10, 10, 0⟩) ∧
    ((processEvent "c" ⟨[("c", ⟨1, 10, 10, 0⟩)], 0⟩
        (.recvMsg 12 (.ok (.obj [("type", .str "test"), ("data", .str "abc")]))
          (Except.ok ()))).sent
      = [(.obj [("type", .str "test_response"),
                ("message", .str "✅ Test successful!"),
                ("echo_data", .str "abc"),
                ("server_time", .num 12),
                ("connection_stats",
                 .obj [("id", .str "c"),
                       ("messages_received", .num 1),
                       ("uptime", .num (12 - 10))])],
          true)] ∧
     (processEvent "c" ⟨[("c", ⟨1, 10, 10, 0⟩)], 0⟩
        (.recvMsg 12 (.ok (.obj [("type", .str "test"), ("data", .str "abc")]))
          (Except.ok ()))).keepGoing = true) :=
  ⟨rfl, rfl,
   c7_test_response 12 "c" ⟨[("c", ⟨1, 10, 10, 0⟩)], 0⟩
     [("type", .str "test"), ("data", .str "abc")] ⟨1, 10, 10, 0⟩ (Except.ok ())
     rfl rfl⟩

/-- C8: safe_send turns any outcome of the underlying serialized send into a
Bool — true exactly when the write succeeded, false on every failure — and
by its very type never re-raises past its boundary. -/
theorem c8_safe_send_total :
    (∀ e : String, safe_send (.error e) = false) ∧
    safe_send (.ok ()) = true ∧
    (∀ o : Except String Unit, safe_send o = true ↔ o = .ok ()) := by
  refine ⟨fun e => rfl, rfl, fun o => ?_⟩
  cases o with
  | ok u => cases u; simp [safe_send]
  | error e => simp [safe_send]

/-- C9: a payload that decodes to a non-object JSON value makes the
attribute access `message.get` raise; the handler catches it, answers with
the generic "Server processing error" response, and the loop keeps going
exactly when that send succeeds. -/
theorem c9_non_object_payload (now : Int) (cid : String) (mgr : ConnectionManager)
    (v : JsonValue) (o : Except String Unit)
    (hv : v.isObj = false) :
    (∃ s, computeResponse now cid (touchRecord now cid mgr) v = .error s) ∧
    (processEvent cid mgr (.recvMsg now (.ok v) o)).sent
      = [(processingErrorResponse now, safe_send o)] ∧
    jsonField (processingErrorResponse now) "message"
      = some (.str "Server processing error") ∧
    (processEvent cid mgr (.recvMsg now (.ok v) o)).keepGoing = safe_send o := by
  have hresp : ∀ m : ConnectionManager, computeResponse now cid m v
      = .error "AttributeError: object has no attribute get" := by
    intro m
    cases v <;> simp_all [JsonValue.isObj, computeResponse, pyGet]
  refine ⟨⟨_, hresp _⟩, ?_, rfl, rfl⟩
  simp [processEvent, hresp]

/-- C9 witness: a bare JSON string payload. -/
theorem c9_witness :
    (JsonValue.str "hello").isObj = false ∧
    ((∃ s, computeResponse 3 "c" (touchRecord 3 "c" ⟨[], 0⟩) (.str "hello")
        = .error s) ∧
     (processEvent "c" ⟨[], 0⟩ (.recvMsg 3 (.ok (.str "hello")) (Except.ok ()))).sent
       = [(processingErrorResponse 3, true)] ∧
     jsonField (processingErrorResponse 3) "message"
       = some (.str "Server processing error") ∧
     (processEvent "c" ⟨[], 0⟩
        (.recvMsg 3 (.ok (.str "hello")) (Except.ok ()))).keepGoing = true) :=
  ⟨rfl, c9_non_object_payload 3 "c" ⟨[], 0⟩ (.str "hello") (Except.ok ()) rfl⟩

theorem computeResponse_registry_independent (now : Int) (cid : String)
    (m m' : ConnectionManager) (fields : List (String × JsonValue))
    (h1 : ((alistLookup "type" fields).getD (.str "unknown")).isStr "ping" = false)
    (h2 : ((alistLookup "type" fields).getD (.str "unknown")).isStr "test" = false)
    (h3 : ((alistLookup "type" fields).getD (.str "unknown")).isStr "heartbeat" = false) :
    computeResponse now cid m (.obj fields) = computeResponse now cid m' (.obj fields) := by
  simp [computeResponse, pyGet, h1, h2, h3]

/-- C10: when the connection's id is absent from the registry, a decoded
ping, test or heartbeat hits the unguarded registry lookup, the raised
KeyError is caught and the reply is the generic "Server processing error"
response; a decoded object of any other type is answered exactly as it
would be with any registry state (its normal response). -/
theorem c10_absent_registry (now : Int) (cid : String) (mgr : ConnectionManager)
    (fields : List (String × JsonValue)) (o : Except String Unit)
    (hrec : alistLookup cid mgr.connections = none) :
    (((alistLookup "type" fields).getD (.str "unknown") = .str "ping" ∨
      (alistLookup "type" fields).getD (.str "unknown") = .str "test" ∨
      (alistLookup "type" fields).getD (.str "unknown") = .str "heartbeat") →
      (processEvent cid mgr (.recvMsg now (.ok (.obj fields)) o)).sent
        = [(processingErrorResponse now, safe_send o)]) ∧
    (∀ mgr₂ : ConnectionManager,
      (alistLookup "type" fields).getD (.str "unknown") ≠ .str "ping" →
      (alistLookup "type" fields).getD (.str "unknown") ≠ .str "test" →
      (alistLookup "type" fields).getD (.str "unknown") ≠ .str "heartbeat" →
      (processEvent cid mgr (.recvMsg now (.ok (.obj fields)) o)).sent
        = (processEvent cid mgr₂ (.recvMsg now (.ok (.obj fields)) o)).sent) := by
  have hnot : (alistLookup cid mgr.connections).isSome = false := by simp [hrec]
  have htouch : touchRecord now cid mgr = mgr := by simp [touchRecord, hnot]
  constructor
  · intro hdisj
    rcases hdisj with h | h | h <;>
      simp [processEvent, htouch, computeResponse, pyGet, h, JsonValue.isStr, hrec]
  · intro mgr₂ h1 h2 h3
    have hb1 : ((alistLookup "type" fields).getD (.str "unknown")).isStr "ping"
        = false := by
      rw [← Bool.not_eq_true, isStr_eq_true_iff]; exact h1
    have hb2 : ((alistLookup "type" fields).getD (.str "unknown")).isStr "test"
        = false := by
      rw [← Bool.not_eq_true, isStr_eq_true_iff]; exact h2
    have hb3 : ((alistLookup "type" fields).getD (.str "unknown")).isStr "heartbeat"
        = false := by
      rw [← Bool.not_eq_true, isStr_eq_true_iff]; exact h3
    simp only [processEvent]
    rw [computeResponse_registry_independent now cid (touchRecord now cid mgr)
          (touchRecord now cid mgr₂) fields hb1 hb2 hb3]

/-- C10 witness: a ping arriving while the id is absent from the registry is
answered with the generic processing error. -/
theorem c10_witness :
    (alistLookup "c" (⟨[], 0⟩ : ConnectionManager).connections = none) ∧
    ((((alistLookup "type" [("type", JsonValue.str "ping")]).getD (.str "unknown")
          = .str "ping" ∨
       (alistLookup "type" [("type", JsonValue.str "ping")]).getD (.str "unknown")
          = .str "test" ∨
       (alistLookup "type" [("type", JsonValue.str "ping")]).getD (.str "unknown")
          = .str "heartbeat") →
       (processEvent "c" ⟨[], 0⟩
          (.recvMsg 9 (.ok (.obj [("type", .str "ping")])) (Except.ok ()))).sent
         = [(processingErrorResponse 9, safe_send (Except.ok ()))]) ∧
     (∀ mgr₂ : ConnectionManager,
       (alistLookup "type" [("type", JsonValue.str "ping")]).getD (.str "unknown")
          ≠ .str "ping" →
       (alistLookup "type" [("type", JsonValue.str "ping")]).getD (.str "unknown")
          ≠ .str "test" →
       (alistLookup "type" [("type", JsonValue.str "ping")]).getD (.str "unknown")
          ≠ .str "heartbeat" →
       (processEvent "c" ⟨[], 0⟩
          (.recvMsg 9 (.ok (.obj [("type", .str "ping")])) (Except.ok ()))).sent
         = (processEvent "c" mgr₂
              (.recvMsg 9 (.ok (.obj [("type", .str "ping")])) (Except.ok ()))).sent)) :=
  ⟨rfl, c10_absent_registry 9 "c" ⟨[], 0⟩ [("type", .str "ping")] (Except.ok ()) rfl⟩

end WSApp
